import Mathlib

/-!
Verification of the payslip-generator backend.

The repository contains two server variants:
* `src/unnamed/part_000` — the richer variant (router `POST /payslips`,
  `GET /payslips/history` with pagination, `validatePayslip`,
  `calculateNetSalary`, `generatePayslipId`, `getPayslips`, `getPayslipCount`);
* `src/Backend/server.js` — the simpler variant (`validatePayslipData`,
  inline net-salary computation, `GET /api/payslips` self-service read).

Monetary values (JS numbers) are modelled as rationals; the relational store
is modelled as a list of records; the random draw of `Math.random()` is an
explicit rational parameter in `[0,1)`.
-/

namespace Payslip

/- ## Character / string helpers shared by the regex models -/

/-- Value of a digit string, most significant digit first. -/
def digitsToNat (ds : List Char) : Nat :=
  ds.foldl (fun a c => a * 10 + (c.toNat - '0'.toNat)) 0

/-- Model of JS `parseInt(s)` (radix 10): optional sign, then the longest
leading run of digits; `none` models `NaN`. -/
def parseIntJs (s : String) : Option Int :=
  match s.data with
  | '-' :: rest =>
    let ds := rest.takeWhile Char.isDigit
    if ds.isEmpty then none else some (-(digitsToNat ds : Int))
  | '+' :: rest =>
    let ds := rest.takeWhile Char.isDigit
    if ds.isEmpty then none else some (digitsToNat ds : Int)
  | cs =>
    let ds := cs.takeWhile Char.isDigit
    if ds.isEmpty then none else some (digitsToNat ds : Int)

/-- Does `text` begin with `pat`? -/
def startsWithList : List Char → List Char → Bool
  | [], _ => true
  | _ :: _, [] => false
  | p :: ps, t :: ts => p == t && startsWithList ps ts

/-- Does `text` contain `pat` as a contiguous run? -/
def containsList : List Char → List Char → Bool
  | [], pat => startsWithList pat []
  | c :: ts, pat => startsWithList pat (c :: ts) || containsList ts pat

/-- Case-insensitive substring test; models SQL `hay ILIKE '%needle%'`
(treating the interpolated search text literally). -/
def containsCI (hay needle : String) : Bool :=
  containsList hay.toLower.data needle.toLower.data

/-- Model of the anchored regex `^ATS0[0-9]{3}$` used by both variants for
employee ids. -/
def matchesATS0 (s : String) : Bool :=
  match s.data with
  | c1 :: c2 :: c3 :: c4 :: d1 :: d2 :: d3 :: [] =>
    c1 == 'A' && c2 == 'T' && c3 == 'S' && c4 == '0' &&
    d1.isDigit && d2.isDigit && d3.isDigit
  | _ => false

/-- Tail of the month/year pattern: one whitespace character followed by
exactly four digits. -/
def wsThenFourDigits (cs : List Char) : Bool :=
  match cs with
  | [w, d1, d2, d3, d4] =>
    w.isWhitespace && d1.isDigit && d2.isDigit && d3.isDigit && d4.isDigit
  | _ => false

/-- One or more letters followed by `wsThenFourDigits`. -/
def monthYearChars : List Char → Bool
  | [] => false
  | c :: cs => c.isAlpha && (wsThenFourDigits cs || monthYearChars cs)

/-- Model of the anchored regex `^[A-Za-z]+\s[0-9]{4}$` used by both variants
for the `month_year` field. -/
def matchesMonthYear (s : String) : Bool :=
  monthYearChars s.data

/-- Split a character list at the first occurrence of `c`. -/
def splitAtChar (c : Char) : List Char → Option (List Char × List Char)
  | [] => none
  | x :: xs =>
    if x == c then some ([], xs)
    else (splitAtChar c xs).map (fun p => (x :: p.1, p.2))

/-- Model of the loose email regex `^[^\s@]+@[^\s@]+\.[^\s@]+$` of
`part_000`'s `validatePayslip`. -/
def looseEmailOk (s : String) : Bool :=
  match splitAtChar '@' s.data with
  | none => false
  | some (localPart, rest) =>
    !localPart.isEmpty && localPart.all (fun c => !c.isWhitespace) &&
    rest.all (fun c => !c.isWhitespace && !(c == '@')) &&
    ((rest.drop 1).dropLast).contains '.'

/-- Character class `[a-zA-Z0-9._%+-]` of the strict email regex. -/
def isEmailLocalChar (c : Char) : Bool :=
  c.isAlphanum || c == '.' || c == '_' || c == '%' || c == '+' || c == '-'

/-- Character class `[a-zA-Z0-9.-]` of the strict email regex. -/
def isEmailDomainChar (c : Char) : Bool :=
  c.isAlphanum || c == '.' || c == '-'

/-- Does `rest` (the part after `@`) decompose as a nonempty domain of domain
characters, a dot, and exactly the given top-level domain (case-insensitive)? -/
def emailSuffixOk (rest : List Char) (tld : List Char) : Bool :=
  let n := rest.length
  let k := tld.length + 1
  decide (k < n) &&
  ((rest.drop (n - k)).map Char.toLower == '.' :: tld) &&
  (rest.take (n - k)).all isEmailDomainChar

/-- Model of the strict email regex
`^[a-zA-Z0-9._%+-]+@[a-zA-Z0-9.-]+\.(com|in|org|co\.in)$/i` of
`server.js`. -/
def serverEmailOk (s : String) : Bool :=
  match splitAtChar '@' s.data with
  | none => false
  | some (localPart, rest) =>
    !localPart.isEmpty && localPart.all isEmailLocalChar &&
    (emailSuffixOk rest "com".data || emailSuffixOk rest "in".data ||
     emailSuffixOk rest "org".data || emailSuffixOk rest "co.in".data)

/-- No two adjacent whitespace characters. -/
def noAdjacentWs : List Char → Bool
  | a :: b :: t => !(a.isWhitespace && b.isWhitespace) && noAdjacentWs (b :: t)
  | _ => true

/-- Model of the name regex `^[a-zA-Z]+(?:\s[a-zA-Z]+)*$` of `server.js`:
words of letters separated by single whitespace characters. -/
def serverNameOk (s : String) : Bool :=
  match s.data with
  | [] => false
  | c :: cs =>
    (c :: cs).all (fun x => x.isAlpha || x.isWhitespace) &&
    c.isAlpha && ((c :: cs).getLastD c).isAlpha && noAdjacentWs (c :: cs)

/-- JS truthiness of an optional query-string value (`undefined` and the empty
string are falsy). -/
def strTruthy : Option String → Bool
  | none => false
  | some s => s != ""

/- ## part_000 variant: payload, validator, calculator, id generator -/

/-- Request body of `POST /api/payslips` in the `part_000` variant. The JSON
body is open, so a caller may also submit a `net_salary` key; it is kept here
as `net_salary_field` and, like in the source, never read by any handler. -/
structure PayslipBody where
  employee_id : String
  employee_name : String
  employee_email : String
  month_year : String
  designation : String
  office_location : String
  employment_type : String
  date_of_joining : String
  working_days : Int
  bank_name : String
  pan_no : String
  bank_account_no : String
  pf_no : String
  uan_no : String
  esic_no : String
  basic_salary : ℚ
  hra : ℚ
  other_allowance : ℚ
  professional_tax : ℚ
  tds : ℚ
  provident_fund : ℚ
  lwp : ℚ
  other_deduction : Option ℚ
  net_salary_field : Option ℚ
deriving DecidableEq

/-- One `errors.push(msg)` guarded by a passing condition. -/
def checkErr (ok : Bool) (msg : String) : List String :=
  if ok then [] else [msg]

/-- Model of `validatePayslip` (part_000, lines 292–317): collects the error
messages of the five checks the middleware performs, in source order. -/
def validatePayslip (b : PayslipBody) : List String :=
  checkErr ((b.employee_id != "") && matchesATS0 b.employee_id)
    "Invalid employee ID format (ATS0XXX)" ++
  checkErr ((b.employee_name != "") && decide (3 ≤ b.employee_name.length))
    "Employee name must be at least 3 characters" ++
  checkErr ((b.employee_email != "") && looseEmailOk b.employee_email)
    "Invalid email format" ++
  checkErr ((b.month_year != "") && matchesMonthYear b.month_year)
    "Month year must be in format \"Month YYYY\"" ++
  checkErr (decide (0 < b.basic_salary))
    "Basic salary must be a positive number"

/-- Model of `calculateNetSalary` (part_000, lines 319–322). -/
def calculateNetSalary (b : PayslipBody) : ℚ :=
  (b.basic_salary + b.hra + b.other_allowance) -
    (b.professional_tax + b.tds + b.provident_fund + b.lwp +
      b.other_deduction.getD 0)

/-- Remove the first space character, as JS `s.replace(' ', '')` does. -/
def removeFirstSpace : List Char → List Char
  | [] => []
  | c :: cs => if c == ' ' then cs else c :: removeFirstSpace cs

/-- Model of JS `s.replace(' ', '')`. -/
def jsReplaceFirstSpace (s : String) : String :=
  String.mk (removeFirstSpace s.data)

/-- Model of JS `s.toUpperCase()` on the ASCII strings at play. -/
def jsToUpperCase (s : String) : String :=
  String.mk (s.data.map Char.toUpper)

/-- Model of `Math.floor(100 + Math.random() * 900)` where `r` is the draw of
`Math.random()`. -/
def jsRandom3 (r : ℚ) : ℤ :=
  ⌊(100 : ℚ) + r * 900⌋

/-- Model of `generatePayslipId` (part_000, lines 324–327). -/
def generatePayslipId (monthYear : String) (r : ℚ) : String :=
  "PSL-" ++ jsToUpperCase (jsReplaceFirstSpace monthYear) ++ "-" ++
    toString (jsRandom3 r)

/- ## part_000 variant: store and create path -/

/-- Row of the `payslips` table in the `part_000` variant (timestamps and
audit columns omitted: no claim mentions them). -/
structure PayslipRecord where
  payslip_id : String
  employee_id : String
  employee_name : String
  employee_email : String
  month_year : String
  designation : String
  office_location : String
  employment_type : String
  date_of_joining : String
  working_days : Int
  bank_name : String
  pan_no : String
  bank_account_no : String
  pf_no : String
  uan_no : String
  esic_no : String
  basic_salary : ℚ
  hra : ℚ
  other_allowance : ℚ
  professional_tax : ℚ
  tds : ℚ
  provident_fund : ℚ
  lwp : ℚ
  other_deduction : ℚ
  net_salary : ℚ
  status : String
deriving DecidableEq

/-- The row inserted by `router.post('/payslips')` (part_000, lines 225–243):
every business column comes from the body, `other_deduction` is defaulted with
`|| 0`, `net_salary` is the computed value, `status` takes the table default. -/
def toRecord (b : PayslipBody) (pid : String) : PayslipRecord :=
  { payslip_id := pid
    employee_id := b.employee_id
    employee_name := b.employee_name
    employee_email := b.employee_email
    month_year := b.month_year
    designation := b.designation
    office_location := b.office_location
    employment_type := b.employment_type
    date_of_joining := b.date_of_joining
    working_days := b.working_days
    bank_name := b.bank_name
    pan_no := b.pan_no
    bank_account_no := b.bank_account_no
    pf_no := b.pf_no
    uan_no := b.uan_no
    esic_no := b.esic_no
    basic_salary := b.basic_salary
    hra := b.hra
    other_allowance := b.other_allowance
    professional_tax := b.professional_tax
    tds := b.tds
    provident_fund := b.provident_fund
    lwp := b.lwp
    other_deduction := b.other_deduction.getD 0
    net_salary := calculateNetSalary b
    status := "Generated" }

/-- The duplicate pre-check `SELECT 1 FROM payslips WHERE employee_id = $1 AND
month_year = $2`. -/
def payslipExists (store : List PayslipRecord) (eid my : String) : Bool :=
  store.any (fun rec => rec.employee_id == eid && rec.month_year == my)

/-- Outcome of `POST /api/payslips` (part_000): `badRequest` is the 400 of the
validation middleware, `conflict` the 409 duplicate answer, `created` the 201
answer carrying the inserted row. -/
inductive CreateResult where
  | badRequest (errors : List String)
  | conflict (error : String)
  | created (rec : PayslipRecord)
deriving DecidableEq

/-- Model of the create path (part_000 lines 207–254 plus the
`validatePayslip` middleware): reject invalid bodies, then reject duplicates
of `(employee_id, month_year)`, else insert the computed row. `r` is the
`Math.random()` draw used for the payslip id. -/
def createPayslip (store : List PayslipRecord) (b : PayslipBody) (r : ℚ) :
    CreateResult × List PayslipRecord :=
  if validatePayslip b ≠ [] then
    (CreateResult.badRequest (validatePayslip b), store)
  else if payslipExists store b.employee_id b.month_year then
    (CreateResult.conflict "Payslip already exists", store)
  else
    (CreateResult.created (toRecord b (generatePayslipId b.month_year r)),
     store ++ [toRecord b (generatePayslipId b.month_year r)])

/-- Run a sequence of create requests against the store. -/
def runCreates (store : List PayslipRecord)
    (reqs : List (PayslipBody × ℚ)) : List PayslipRecord :=
  reqs.foldl (fun st req => (createPayslip st req.1 req.2).2) store

/-- Number of stored rows with the given `(employee_id, month_year)` pair. -/
def pairCount (store : List PayslipRecord) (eid my : String) : Nat :=
  store.countP (fun rec => rec.employee_id == eid && rec.month_year == my)

/-- At most one stored row per `(employee_id, month_year)` pair. -/
def UniquePairs (store : List PayslipRecord) : Prop :=
  ∀ eid my, pairCount store eid my ≤ 1

/- ## part_000 variant: history listing with pagination -/

/-- Month names accepted by the `TO_DATE(month_year, 'Month YYYY')` parse,
case-insensitively, mapped to their calendar number. -/
def monthNumber (s : String) : Option Nat :=
  match s.toLower with
  | "january" => some 1
  | "february" => some 2
  | "march" => some 3
  | "april" => some 4
  | "may" => some 5
  | "june" => some 6
  | "july" => some 7
  | "august" => some 8
  | "september" => some 9
  | "october" => some 10
  | "november" => some 11
  | "december" => some 12
  | _ => none

/-- Year component: a nonempty digit string. -/
def parseYearDigits (s : String) : Option Nat :=
  if !s.data.isEmpty && s.data.all Char.isDigit then some (digitsToNat s.data)
  else none

/-- Model of `TO_DATE(month_year, 'Month YYYY')` at month granularity:
`(month, year)` when the stored period string parses. -/
def parsePeriod (s : String) : Option (Nat × Nat) :=
  match s.splitOn " " with
  | [mstr, ystr] =>
    match monthNumber mstr, parseYearDigits ystr with
    | some mo, some yr => some (mo, yr)
    | _, _ => none
  | _ => none

/-- Linear key of a pay period: later months get larger keys. Rows whose
period does not parse (which would abort the SQL query) are keyed 0. -/
def periodKey (s : String) : Nat :=
  match parsePeriod s with
  | some (mo, yr) => yr * 12 + mo
  | none => 0

/-- Row filter of `getPayslips` / `getPayslipCount` (part_000, lines 329–376):
`search` matches id or name case-insensitively as a substring, `month` and
`year` compare the extracted calendar components with `parseInt` of the query
value. Absent or empty parameters (falsy in JS) add no condition. -/
def historyMatches (search month year : Option String) (r : PayslipRecord) :
    Bool :=
  (match search with
   | some s =>
     if s != "" then containsCI r.employee_id s || containsCI r.employee_name s
     else true
   | none => true) &&
  (match month with
   | some ms =>
     if ms != "" then
       (parsePeriod r.month_year).map (fun p => (p.1 : Int)) == parseIntJs ms
     else true
   | none => true) &&
  (match year with
   | some ys =>
     if ys != "" then
       (parsePeriod r.month_year).map (fun p => (p.2 : Int)) == parseIntJs ys
     else true
   | none => true)

/-- The filtered set of the history listing, before ordering. -/
def historyFiltered (table : List PayslipRecord)
    (search month year : Option String) : List PayslipRecord :=
  table.filter (historyMatches search month year)

/-- The comparison realised by
`ORDER BY TO_DATE(month_year, 'Month YYYY') DESC, employee_id`. -/
def historyLe (a b : PayslipRecord) : Bool :=
  decide (periodKey b.month_year < periodKey a.month_year) ||
  (decide (periodKey a.month_year = periodKey b.month_year) &&
   decide (a.employee_id ≤ b.employee_id))

/-- The filtered set ordered by pay period descending, then employee id. -/
def orderedHistory (table : List PayslipRecord)
    (search month year : Option String) : List PayslipRecord :=
  (historyFiltered table search month year).mergeSort historyLe

/-- Model of `Math.ceil(count / limit)` over the rationals. -/
def ratCeilDiv (count limit : Nat) : Nat :=
  (⌈(count : ℚ) / (limit : ℚ)⌉).toNat

/-- Pagination metadata of the history response (part_000, lines 266–274). -/
structure PaginationMeta where
  total : Nat
  totalPages : Nat
  currentPage : Nat
  limit : Nat
deriving DecidableEq

/-- Body of the `GET /api/payslips/history` response. -/
structure HistoryResponse where
  data : List PayslipRecord
  pagination : PaginationMeta
deriving DecidableEq

/-- Model of `router.get('/payslips/history')` (part_000, lines 256–279):
`offset = (page - 1) * limit`, data from the ordered filtered set via SQL
`LIMIT`/`OFFSET`, `total` from the count query over the same filter,
`totalPages = Math.ceil(count / limit)`. -/
def historyResponse (table : List PayslipRecord)
    (search month year : Option String) (page limit : Nat) : HistoryResponse :=
  let offset := (page - 1) * limit
  { data := ((orderedHistory table search month year).drop offset).take limit
    pagination :=
      { total := (historyFiltered table search month year).length
        totalPages := ratCeilDiv (historyFiltered table search month year).length limit
        currentPage := page
        limit := limit } }

/- ## part_000 variant: SQL text construction (repository reads) -/

/-- A value bound to a `$n` placeholder: the raw search text (wrapped in `%`)
or a `parseInt`-converted number (`none` models `NaN`). -/
inductive SqlParam where
  | str (s : String)
  | num (n : Option Int)
deriving DecidableEq

/-- Model of the query assembly of `getPayslips` (part_000, lines 329–353):
returns the final query text and the bound parameter list. `limit` and
`offset` are the numbers computed by the route handler. -/
def getPayslipsQuery (search month year : Option String)
    (limit offset : Int) : String × List SqlParam :=
  let step0 : String × List SqlParam := ("SELECT * FROM payslips WHERE 1=1", [])
  let step1 :=
    if strTruthy search then
      (step0.1 ++ " AND (employee_id ILIKE $1 OR employee_name ILIKE $1)",
       step0.2 ++ [SqlParam.str ("%" ++ (search.getD "") ++ "%")])
    else step0
  let step2 :=
    if strTruthy month then
      (step1.1 ++ " AND EXTRACT(MONTH FROM TO_DATE(month_year, \x27Month YYYY\x27)) = $" ++
         toString (step1.2.length + 1),
       step1.2 ++ [SqlParam.num (parseIntJs (month.getD ""))])
    else step1
  let step3 :=
    if strTruthy year then
      (step2.1 ++ " AND EXTRACT(YEAR FROM TO_DATE(month_year, \x27Month YYYY\x27)) = $" ++
         toString (step2.2.length + 1),
       step2.2 ++ [SqlParam.num (parseIntJs (year.getD ""))])
    else step2
  (step3.1 ++ " ORDER BY TO_DATE(month_year, \x27Month YYYY\x27) DESC, employee_id LIMIT $" ++
     toString (step3.2.length + 1) ++ " OFFSET $" ++ toString (step3.2.length + 2),
   step3.2 ++ [SqlParam.num (some limit), SqlParam.num (some offset)])

/-- Model of the query assembly of `getPayslipCount` (part_000, lines
355–376). -/
def getPayslipCountQuery (search month year : Option String) :
    String × List SqlParam :=
  let step0 : String × List SqlParam :=
    ("SELECT COUNT(*) FROM payslips WHERE 1=1", [])
  let step1 :=
    if strTruthy search then
      (step0.1 ++ " AND (employee_id ILIKE $1 OR employee_name ILIKE $1)",
       step0.2 ++ [SqlParam.str ("%" ++ (search.getD "") ++ "%")])
    else step0
  let step2 :=
    if strTruthy month then
      (step1.1 ++ " AND EXTRACT(MONTH FROM TO_DATE(month_year, \x27Month YYYY\x27)) = $" ++
         toString (step1.2.length + 1),
       step1.2 ++ [SqlParam.num (parseIntJs (month.getD ""))])
    else step1
  let step3 :=
    if strTruthy year then
      (step2.1 ++ " AND EXTRACT(YEAR FROM TO_DATE(month_year, \x27Month YYYY\x27)) = $" ++
         toString (step2.2.length + 1),
       step2.2 ++ [SqlParam.num (parseIntJs (year.getD ""))])
    else step2
  step3

/- ## server.js variant -/

/-- Request body of `POST /api/payslips` in the `server.js` variant; as for
`PayslipBody`, `net_salary_field` records a caller-supplied `net_salary`
key, which no handler reads. -/
structure ServerBody where
  employee_id : String
  employee_name : String
  employee_email : String
  month_year : String
  basic_salary : ℚ
  da : ℚ
  hra : ℚ
  wage_allowance : ℚ
  medical_allowance : ℚ
  pf : ℚ
  esi : ℚ
  tds : ℚ
  lwp : ℚ
  special_deduction : ℚ
  net_salary_field : Option ℚ
deriving DecidableEq

/-- The employee id test of `server.js` (line 88):
`/^ATS0[0-9]{3}$/.test(id) && id !== 'ATS0000'`. -/
def serverEmployeeIdCheck (s : String) : Bool :=
  matchesATS0 s && !(s == "ATS0000")

/-- Sequential early-return over ordered checks: the message of the first
check whose condition fails, `none` when all pass. -/
def failFast : List (Bool × String) → Option String
  | [] => none
  | (ok, msg) :: rest => if ok then failFast rest else some msg

/-- Model of the `validatePayslipData` middleware (server.js, lines 74–122):
first failing check wins; `none` means the payload is accepted. The
required-presence and `typeof` checks of the source cannot fail on this typed
body and are subsumed by the field types. -/
def validatePayslipData (b : ServerBody) : Option String :=
  failFast
    [ (serverEmployeeIdCheck b.employee_id,
       "Employee ID must be ATS0 followed by 3 digits (not 000)"),
      (serverNameOk b.employee_name,
       "Name must contain letters and single spaces"),
      (serverEmailOk b.employee_email, "Invalid email format"),
      (matchesMonthYear b.month_year,
       "Month/Year must be in \"Month YYYY\" format"),
      (!decide (b.basic_salary ≤ 0), "Basic salary must be a positive number"),
      (!decide (b.da < 0), "da must be a non-negative number"),
      (!decide (b.hra < 0), "hra must be a non-negative number"),
      (!decide (b.wage_allowance < 0),
       "wage_allowance must be a non-negative number"),
      (!decide (b.medical_allowance < 0),
       "medical_allowance must be a non-negative number"),
      (!decide (b.pf < 0), "pf must be a non-negative number"),
      (!decide (b.esi < 0), "esi must be a non-negative number"),
      (!decide (b.tds < 0), "tds must be a non-negative number"),
      (!decide (b.lwp < 0), "lwp must be a non-negative number"),
      (!decide (b.special_deduction < 0),
       "special_deduction must be a non-negative number") ]

/-- The net-salary computation of the `server.js` create handler (lines
132–133). -/
def serverNetSalary (b : ServerBody) : ℚ :=
  (b.basic_salary + b.da + b.hra + b.wage_allowance + b.medical_allowance) -
    (b.pf + b.esi + b.tds + b.lwp + b.special_deduction)

/-- Row of the `payslips` table in the `server.js` variant. -/
structure ServerRecord where
  payslip_id : String
  employee_id : String
  employee_name : String
  employee_email : String
  month_year : String
  basic_salary : ℚ
  da : ℚ
  hra : ℚ
  wage_allowance : ℚ
  medical_allowance : ℚ
  pf : ℚ
  esi : ℚ
  tds : ℚ
  lwp : ℚ
  special_deduction : ℚ
  net_salary : ℚ
  status : String
deriving DecidableEq

/-- The row inserted by the `server.js` create handler (lines 151–163). -/
def serverInsertRecord (b : ServerBody) (pid : String) : ServerRecord :=
  { payslip_id := pid
    employee_id := b.employee_id
    employee_name := b.employee_name
    employee_email := b.employee_email
    month_year := b.month_year
    basic_salary := b.basic_salary
    da := b.da
    hra := b.hra
    wage_allowance := b.wage_allowance
    medical_allowance := b.medical_allowance
    pf := b.pf
    esi := b.esi
    tds := b.tds
    lwp := b.lwp
    special_deduction := b.special_deduction
    net_salary := serverNetSalary b
    status := "Generated" }

/-- `ORDER BY TO_DATE(month_year, 'Month YYYY') DESC` of the self-service
read. -/
def serverPeriodLe (a b : ServerRecord) : Bool :=
  decide (periodKey b.month_year ≤ periodKey a.month_year)

/-- Result of `GET /api/payslips` (server.js): 400, 403, or 200 with rows. -/
inductive EmployeeReadResult where
  | badRequest (error : String)
  | forbidden (error : String)
  | ok (rows : List ServerRecord)
deriving DecidableEq

/-- Does a stored row fall in the inclusive period range of the self-service
read (comparisons on the `TO_DATE` values)? -/
def inPeriodRange (startM endM : Option String) (r : ServerRecord) : Bool :=
  (match startM with
   | some sm =>
     if sm != "" then decide (periodKey sm ≤ periodKey r.month_year) else true
   | none => true) &&
  (match endM with
   | some em =>
     if em != "" then decide (periodKey r.month_year ≤ periodKey em) else true
   | none => true)

/-- Model of `GET /api/payslips` (server.js, lines 248–328): require both
query parameters, check their formats, authorize by matching the
`(employee_id, employee_email)` pair against the store, validate the optional
range bounds, and return the employee's rows ordered by period descending. -/
def selfServiceRead (store : List ServerRecord) (eid email : String)
    (startM endM : Option String) : EmployeeReadResult :=
  if eid == "" || email == "" then
    EmployeeReadResult.badRequest "Employee ID and email are required"
  else if !(serverEmployeeIdCheck eid) then
    EmployeeReadResult.badRequest
      "Employee ID must be ATS0 followed by 3 digits (not 000)"
  else if !(serverEmailOk email) then
    EmployeeReadResult.badRequest "Invalid email format"
  else if !(store.any (fun r => r.employee_id == eid && r.employee_email == email)) then
    EmployeeReadResult.forbidden "Invalid employee ID or email"
  else if strTruthy startM && !(matchesMonthYear (startM.getD "")) then
    EmployeeReadResult.badRequest "Start month must be in \"Month YYYY\" format"
  else if strTruthy endM && !(matchesMonthYear (endM.getD "")) then
    EmployeeReadResult.badRequest "End month must be in \"Month YYYY\" format"
  else
    EmployeeReadResult.ok
      ((store.filter (fun r => r.employee_id == eid && inPeriodRange startM endM r)).mergeSort
        serverPeriodLe)

/- ## Spec-side definitions (for the refinement-style claims) -/

/-- Sum of the earnings fields of a `part_000` payload, as the spec words it:
basic salary plus all allowance fields. -/
def earningsSumSpec (b : PayslipBody) : ℚ :=
  b.basic_salary + b.hra + b.other_allowance

/-- Sum of the deduction fields of a `part_000` payload, as the spec words
it. -/
def deductionsSumSpec (b : PayslipBody) : ℚ :=
  b.professional_tax + b.tds + b.provident_fund + b.lwp +
    b.other_deduction.getD 0

/-- Sum of the earnings fields of a `server.js` payload. -/
def serverEarningsSumSpec (b : ServerBody) : ℚ :=
  b.basic_salary + b.da + b.hra + b.wage_allowance + b.medical_allowance

/-- Sum of the deduction fields of a `server.js` payload. -/
def serverDeductionsSumSpec (b : ServerBody) : ℚ :=
  b.pf + b.esi + b.tds + b.lwp + b.special_deduction

/-- The spec's reading of the employee id rule: the four literal characters
`ATS0` followed by exactly three digits. -/
def SpecIdShape (s : String) : Prop :=
  ∃ d1 d2 d3, d1.isDigit = true ∧ d2.isDigit = true ∧ d3.isDigit = true ∧
    s.data = ['A', 'T', 'S', '0', d1, d2, d3]

/- ## Concrete payloads used by witnesses and counterexamples -/

/-- A payload that passes every check `validatePayslip` performs. -/
def sampleBody : PayslipBody :=
  { employee_id := "ATS0001"
    employee_name := "John Doe"
    employee_email := "john@example.com"
    month_year := "March 2025"
    designation := "Engineer"
    office_location := "Hyderabad"
    employment_type := "Full Time"
    date_of_joining := "2020-01-01"
    working_days := 22
    bank_name := "State Bank"
    pan_no := "ABCDE1234F"
    bank_account_no := "1234567890"
    pf_no := "PF12345678901"
    uan_no := "123456789012"
    esic_no := "1234567890"
    basic_salary := 30000
    hra := 6000
    other_allowance := 2000
    professional_tax := 200
    tds := 1500
    provident_fund := 1800
    lwp := 0
    other_deduction := some 0
    net_salary_field := none }

/- ## Helper lemmas on the create path -/

theorem pairCount_append (s t : List PayslipRecord) (eid my : String) :
    pairCount (s ++ t) eid my = pairCount s eid my + pairCount t eid my :=
  List.countP_append _ _ _

theorem payslipExists_false_iff (store : List PayslipRecord) (eid my : String) :
    payslipExists store eid my = false ↔ pairCount store eid my = 0 := by
  simp [payslipExists, pairCount, List.countP_eq_zero]

theorem createPayslip_insert (store : List PayslipRecord) (b : PayslipBody)
    (r : ℚ) (hv : validatePayslip b = [])
    (he : payslipExists store b.employee_id b.month_year = false) :
    createPayslip store b r =
      (CreateResult.created (toRecord b (generatePayslipId b.month_year r)),
       store ++ [toRecord b (generatePayslipId b.month_year r)]) := by
  simp [createPayslip, hv, he]

theorem uniquePairs_create (store : List PayslipRecord) (b : PayslipBody)
    (r : ℚ) (h : UniquePairs store) : UniquePairs (createPayslip store b r).2 := by
  by_cases hv : validatePayslip b = []
  · by_cases he : payslipExists store b.employee_id b.month_year
    · simpa [createPayslip, hv, he] using h
    · have he2 : payslipExists store b.employee_id b.month_year = false := by
        simpa using he
      rw [createPayslip_insert store b r hv he2]
      intro eid my
      rw [pairCount_append]
      by_cases hb : b.employee_id = eid ∧ b.month_year = my
      · have h0 : pairCount store eid my = 0 := by
          have := (payslipExists_false_iff store b.employee_id b.month_year).mp he2
          rwa [hb.1, hb.2] at this
        have h1 : pairCount [toRecord b (generatePayslipId b.month_year r)] eid my ≤ 1 := by
          simp [pairCount, List.countP_cons]
          split <;> simp
        omega
      · have h1 : pairCount [toRecord b (generatePayslipId b.month_year r)] eid my = 0 := by
          simp only [pairCount, List.countP_cons, List.countP_nil, toRecord]
          have : ¬(b.employee_id = eid ∧ b.month_year = my) := hb
          by_cases h2 : b.employee_id = eid <;> by_cases h3 : b.month_year = my <;>
            simp_all
        rw [h1]
        simpa using h eid my
  · simpa [createPayslip, hv] using h

/- ## Claim theorems -/

/-- C1. For every payload accepted by the validator, the net salary computed
by the create path, stored and returned, equals the sum of the earnings
fields minus the sum of the deduction fields; in the `server.js` variant the
computed net salary satisfies the same identity over its field set. -/
theorem net_salary_correct :
    (∀ (store : List PayslipRecord) (b : PayslipBody) (r : ℚ),
      validatePayslip b = [] →
      payslipExists store b.employee_id b.month_year = false →
      ∃ rec, createPayslip store b r = (CreateResult.created rec, store ++ [rec]) ∧
        rec.net_salary = earningsSumSpec b - deductionsSumSpec b) ∧
    (∀ b : ServerBody,
      serverNetSalary b = serverEarningsSumSpec b - serverDeductionsSumSpec b) := by
  constructor
  · intro store b r hv he
    refine ⟨toRecord b (generatePayslipId b.month_year r),
      createPayslip_insert store b r hv he, ?_⟩
    simp [toRecord, calculateNetSalary, earningsSumSpec, deductionsSumSpec]
  · intro b
    simp [serverNetSalary, serverEarningsSumSpec, serverDeductionsSumSpec]

/-- Witness for C1 at a concrete accepted payload and the empty store. -/
theorem net_salary_correct_witness :
    validatePayslip sampleBody = [] ∧
    payslipExists [] sampleBody.employee_id sampleBody.month_year = false ∧
    ∃ rec, createPayslip [] sampleBody 0 = (CreateResult.created rec, [] ++ [rec]) ∧
      rec.net_salary = earningsSumSpec sampleBody - deductionsSumSpec sampleBody :=
  ⟨by decide, by decide, net_salary_correct.1 [] sampleBody 0 (by decide) (by decide)⟩

/-- C2. Every sequence of create requests preserves uniqueness of the
`(employee_id, month_year)` pair, and submitting the same pair twice lets the
first call succeed with 201 while the second fails with the duplicate error,
leaving exactly one stored record for the pair. -/
theorem unique_pair_per_sequence :
    (∀ (store : List PayslipRecord) (reqs : List (PayslipBody × ℚ)),
      UniquePairs store → UniquePairs (runCreates store reqs)) ∧
    (∀ (store : List PayslipRecord) (b : PayslipBody) (r1 r2 : ℚ),
      validatePayslip b = [] →
      pairCount store b.employee_id b.month_year = 0 →
      ∃ rec, createPayslip store b r1 = (CreateResult.created rec, store ++ [rec]) ∧
        (createPayslip (store ++ [rec]) b r2).1 =
          CreateResult.conflict "Payslip already exists" ∧
        (createPayslip (store ++ [rec]) b r2).2 = store ++ [rec] ∧
        pairCount (store ++ [rec]) b.employee_id b.month_year = 1) := by
  constructor
  · intro store reqs
    induction reqs generalizing store with
    | nil => intro h; exact h
    | cons req rest ih =>
      intro h
      exact ih _ (uniquePairs_create store req.1 req.2 h)
  · intro store b r1 r2 hv h0
    have he : payslipExists store b.employee_id b.month_year = false :=
      (payslipExists_false_iff store b.employee_id b.month_year).mpr h0
    refine ⟨toRecord b (generatePayslipId b.month_year r1),
      createPayslip_insert store b r1 hv he, ?_, ?_, ?_⟩
    · have hdup : payslipExists
          (store ++ [toRecord b (generatePayslipId b.month_year r1)])
          b.employee_id b.month_year = true := by
        simp [payslipExists, toRecord]
      simp [createPayslip, hv, hdup]
    · have hdup : payslipExists
          (store ++ [toRecord b (generatePayslipId b.month_year r1)])
          b.employee_id b.month_year = true := by
        simp [payslipExists, toRecord]
      simp [createPayslip, hv, hdup]
    · rw [pairCount_append, h0]
      simp [pairCount, List.countP_cons, toRecord]

/-- Witness for C2 at a concrete payload and the empty store. -/
theorem unique_pair_per_sequence_witness :
    validatePayslip sampleBody = [] ∧
    pairCount [] sampleBody.employee_id sampleBody.month_year = 0 ∧
    ∃ rec, createPayslip [] sampleBody 0 = (CreateResult.created rec, [] ++ [rec]) ∧
      (createPayslip ([] ++ [rec]) sampleBody 1).1 =
        CreateResult.conflict "Payslip already exists" ∧
      (createPayslip ([] ++ [rec]) sampleBody 1).2 = [] ++ [rec] ∧
      pairCount ([] ++ [rec]) sampleBody.employee_id sampleBody.month_year = 1 :=
  ⟨by decide, by decide,
    unique_pair_per_sequence.2 [] sampleBody 0 1 (by decide) (by decide)⟩

/-- A payload that violates two rules of spec §4.1 — a negative allowance and
working days outside `[1,31]` — yet passes every check `validatePayslip`
performs. -/
def c3bad : PayslipBody :=
  { sampleBody with hra := -100, working_days := 50 }

/-- C3 counterexample: the payload with a negative allowance and an
out-of-range working-days count is accepted by `validatePayslip` and the
create path persists it instead of returning a validation error. -/
theorem rule_violation_accepted :
    c3bad.hra < 0 ∧ c3bad.working_days = 50 ∧ validatePayslip c3bad = [] ∧
    (createPayslip [] c3bad 0).2.length = 1 := by decide

theorem failFast_eq_none_iff (l : List (Bool × String)) :
    failFast l = none ↔ ∀ p ∈ l, p.1 = true := by
  induction l with
  | nil => simp [failFast]
  | cons hd tl ih =>
    obtain ⟨ok, msg⟩ := hd
    cases ok with
    | true => simp [failFast, ih]
    | false => simp [failFast]

/-- C3 (amended). A payload failing one of the checks the validator actually
performs is rejected with the itemized error list and nothing is persisted
(part_000); the `server.js` validator additionally guarantees that accepted
payloads have a positive basic salary and non-negative allowance and
deduction fields. The remaining §4.1 rules (working-days range, negative
allowances in part_000, bank/PAN/UAN/ESIC formats, enumerated designation,
location and employment type, date of joining) are not enforced. -/
theorem invalid_payload_rejected :
    (∀ (store : List PayslipRecord) (b : PayslipBody) (r : ℚ),
      validatePayslip b ≠ [] →
      createPayslip store b r =
        (CreateResult.badRequest (validatePayslip b), store)) ∧
    (∀ b : ServerBody, validatePayslipData b = none →
      0 < b.basic_salary ∧ 0 ≤ b.da ∧ 0 ≤ b.hra ∧ 0 ≤ b.wage_allowance ∧
      0 ≤ b.medical_allowance ∧ 0 ≤ b.pf ∧ 0 ≤ b.esi ∧ 0 ≤ b.tds ∧
      0 ≤ b.lwp ∧ 0 ≤ b.special_deduction) := by
  constructor
  · intro store b r hv
    unfold createPayslip
    rw [if_pos hv]
  · intro b h
    rw [validatePayslipData, failFast_eq_none_iff] at h
    refine ⟨?_, ?_, ?_, ?_, ?_, ?_, ?_, ?_, ?_, ?_⟩
    · have hx := h (!decide (b.basic_salary ≤ 0),
        "Basic salary must be a positive number") (by simp)
      simpa [not_le] using hx
    · have hx := h (!decide (b.da < 0),
        "da must be a non-negative number") (by simp)
      simpa [not_lt] using hx
    · have hx := h (!decide (b.hra < 0),
        "hra must be a non-negative number") (by simp)
      simpa [not_lt] using hx
    · have hx := h (!decide (b.wage_allowance < 0),
        "wage_allowance must be a non-negative number") (by simp)
      simpa [not_lt] using hx
    · have hx := h (!decide (b.medical_allowance < 0),
        "medical_allowance must be a non-negative number") (by simp)
      simpa [not_lt] using hx
    · have hx := h (!decide (b.pf < 0),
        "pf must be a non-negative number") (by simp)
      simpa [not_lt] using hx
    · have hx := h (!decide (b.esi < 0),
        "esi must be a non-negative number") (by simp)
      simpa [not_lt] using hx
    · have hx := h (!decide (b.tds < 0),
        "tds must be a non-negative number") (by simp)
      simpa [not_lt] using hx
    · have hx := h (!decide (b.lwp < 0),
        "lwp must be a non-negative number") (by simp)
      simpa [not_lt] using hx
    · have hx := h (!decide (b.special_deduction < 0),
        "special_deduction must be a non-negative number") (by simp)
      simpa [not_lt] using hx

/-- A payload whose employee id fails the pattern. -/
def c3invalid : PayslipBody :=
  { sampleBody with employee_id := "BADID" }

/-- Witness for the amended C3 at a concrete invalid payload. -/
theorem invalid_payload_rejected_witness :
    validatePayslip c3invalid ≠ [] ∧
    createPayslip [] c3invalid 0 =
      (CreateResult.badRequest (validatePayslip c3invalid), []) :=
  ⟨by decide, invalid_payload_rejected.1 [] c3invalid 0 (by decide)⟩

/-- Membership in one pushed error block. -/
theorem mem_checkErr (x : String) (ok : Bool) (msg : String) :
    x ∈ checkErr ok msg ↔ ok = false ∧ x = msg := by
  unfold checkErr
  split <;> simp_all

/-- The pattern test agrees with the spec's shape reading. -/
theorem matchesATS0_iff (s : String) : matchesATS0 s = true ↔ SpecIdShape s := by
  constructor
  · intro h
    unfold matchesATS0 at h
    split at h
    · rename_i d1 d2 d3 d4 d5 d6 d7 heq
      simp only [Bool.and_eq_true, beq_iff_eq] at h
      refine ⟨d5, d6, d7, h.1.1.2, h.1.2, h.2, ?_⟩
      rw [heq, h.1.1.1.1.1.1, h.1.1.1.1.1.2, h.1.1.1.1.2, h.1.1.1.2]
    · exact Bool.noConfusion h
  · rintro ⟨d1, d2, d3, h1, h2, h3, hs⟩
    simp [matchesATS0, hs, h1, h2, h3]

/-- A payload whose employee id is the literal `ATS0000`, every other field as
in `sampleBody`. -/
def c5body : PayslipBody :=
  { sampleBody with employee_id := "ATS0000" }

/-- C5 counterexample: `part_000`'s validator accepts the literal `ATS0000`
(its regex test has no exclusion), so the claimed "if and only if" fails
there. -/
theorem ats0000_accepted :
    c5body.employee_id = "ATS0000" ∧ matchesATS0 "ATS0000" = true ∧
    validatePayslip c5body = [] := by decide

/-- C5 (amended). The `server.js` validator accepts an employee id exactly
when it is `ATS0` followed by three digits and is not the literal `ATS0000`;
the `part_000` validator accepts an employee id (raises no id error) exactly
when it is `ATS0` followed by three digits, `ATS0000` included. -/
theorem employee_id_validation :
    (∀ s : String,
      serverEmployeeIdCheck s = true ↔ SpecIdShape s ∧ s ≠ "ATS0000") ∧
    (∀ b : PayslipBody,
      "Invalid employee ID format (ATS0XXX)" ∉ validatePayslip b ↔
        SpecIdShape b.employee_id) := by
  constructor
  · intro s
    simp only [serverEmployeeIdCheck, Bool.and_eq_true, Bool.not_eq_true',
      beq_eq_false_iff_ne, matchesATS0_iff]
  · intro b
    simp [validatePayslip, mem_checkErr, Bool.and_eq_true, bne_iff_ne,
      matchesATS0_iff]
    intro hshape he
    obtain ⟨d1, d2, d3, _, _, _, hs⟩ := hshape
    rw [he] at hs
    exact List.noConfusion hs

/-- C7. Two create requests that differ only in the caller-supplied
`net_salary` field behave identically in both variants: the response and the
stored record (hence the stored net salary) are unchanged, because the
handlers compute the net salary from the submitted components only. -/
theorem caller_net_salary_ignored :
    (∀ (store : List PayslipRecord) (b : PayslipBody) (v : Option ℚ) (r : ℚ),
      createPayslip store { b with net_salary_field := v } r =
        createPayslip store b r) ∧
    (∀ (b : ServerBody) (v : Option ℚ) (pid : String),
      serverInsertRecord { b with net_salary_field := v } pid =
        serverInsertRecord b pid ∧
      validatePayslipData { b with net_salary_field := v } =
        validatePayslipData b ∧
      serverNetSalary { b with net_salary_field := v } = serverNetSalary b) := by
  constructor
  · intro store b v r
    cases b
    rfl
  · intro b v pid
    cases b
    exact ⟨rfl, rfl, rfl⟩

/-- A stored `server.js` row used by the self-service read scenarios. -/
def c6rec : ServerRecord :=
  { payslip_id := "PSL-MARCH2025-123"
    employee_id := "ATS0001"
    employee_name := "John Doe"
    employee_email := "john@example.com"
    month_year := "March 2025"
    basic_salary := 30000
    da := 1000
    hra := 6000
    wage_allowance := 500
    medical_allowance := 500
    pf := 1800
    esi := 100
    tds := 1500
    lwp := 0
    special_deduction := 0
    net_salary := 34600
    status := "Generated" }

/-- C6 counterexample: a request whose `employee_id` matches a stored record
and whose `employee_email` mismatches it, but is malformed, is answered with
400 (`Invalid email format`), not 403. -/
theorem email_mismatch_malformed_400 :
    (∃ r ∈ [c6rec], r.employee_id = "ATS0001") ∧
    (∀ r ∈ [c6rec], r.employee_id = "ATS0001" →
      r.employee_email ≠ "not-an-email") ∧
    selfServiceRead [c6rec] "ATS0001" "not-an-email" none none =
      EmployeeReadResult.badRequest "Invalid email format" := by decide

/-- C6 (amended). A self-service read whose `employee_id` passes the id
format check and whose `employee_email` passes the email format check but
matches no stored record with that id is answered with 403 and no payslip
data; a request with a malformed id or email gets 400 instead (also with no
data). -/
theorem email_mismatch_forbidden :
    ∀ (store : List ServerRecord) (eid email : String) (sm em : Option String),
      serverEmployeeIdCheck eid = true → serverEmailOk email = true →
      (∃ r ∈ store, r.employee_id = eid) →
      (∀ r ∈ store, r.employee_id = eid → r.employee_email ≠ email) →
      selfServiceRead store eid email sm em =
        EmployeeReadResult.forbidden "Invalid employee ID or email" := by
  intro store eid email sm em hid hemail hex hmis
  have hne : eid ≠ "" := by
    intro he
    rw [he] at hid
    exact absurd hid (by decide)
  have hene : email ≠ "" := by
    intro he
    rw [he] at hemail
    exact absurd hemail (by decide)
  have hany : store.any
      (fun r => r.employee_id == eid && r.employee_email == email) = false := by
    rw [← Bool.not_eq_true, List.any_eq_true]
    rintro ⟨r, hr, hp⟩
    simp only [Bool.and_eq_true, beq_iff_eq] at hp
    exact hmis r hr hp.1 hp.2
  have c1 : (eid == "" || email == "") = false := by simp [hne, hene]
  simp [selfServiceRead, c1, hid, hemail, hany]

/-- Witness for the amended C6: well-formed id and email, id present in the
store, email mismatched. -/
theorem email_mismatch_forbidden_witness :
    serverEmployeeIdCheck "ATS0001" = true ∧
    serverEmailOk "jane@example.org" = true ∧
    (∃ r ∈ [c6rec], r.employee_id = "ATS0001") ∧
    (∀ r ∈ [c6rec], r.employee_id = "ATS0001" →
      r.employee_email ≠ "jane@example.org") ∧
    selfServiceRead [c6rec] "ATS0001" "jane@example.org" none none =
      EmployeeReadResult.forbidden "Invalid employee ID or email" :=
  ⟨by decide, by decide, by decide, by decide,
    email_mismatch_forbidden [c6rec] "ATS0001" "jane@example.org" none none
      (by decide) (by decide) (by decide) (by decide)⟩

theorem removeFirstSpace_append (m y : List Char) (hm : ∀ c ∈ m, c ≠ ' ') :
    removeFirstSpace (m ++ ' ' :: y) = m ++ y := by
  induction m with
  | nil => simp [removeFirstSpace]
  | cons c cs ih =>
    have hc : c ≠ ' ' := hm c (List.mem_cons_self _ _)
    simp only [List.cons_append, removeFirstSpace]
    rw [if_neg (by simpa using hc)]
    exact congrArg (fun l => c :: l) (ih (fun x hx => hm x (List.mem_cons_of_mem _ hx)))

/-- C8. For a pay period of the form letters, one space, four digits, and any
`Math.random()` draw in `[0,1)`, the generated identifier is the prefix
`PSL-`, the period with its whitespace removed and upper-cased, a dash, and a
number in `[100,999]`. -/
theorem payslip_id_format :
    ∀ (m y : String) (r : ℚ),
      m.data ≠ [] → m.data.all Char.isAlpha = true →
      y.data.all Char.isDigit = true → y.data.length = 4 →
      0 ≤ r → r < 1 →
      generatePayslipId (m ++ " " ++ y) r =
        "PSL-" ++ jsToUpperCase (m ++ y) ++ "-" ++ toString (jsRandom3 r) ∧
      100 ≤ jsRandom3 r ∧ jsRandom3 r ≤ 999 := by
  intro m y r hne halpha hdig hlen hr0 hr1
  refine ⟨?_, ?_, ?_⟩
  · have hdata : (m ++ " " ++ y).data = m.data ++ ' ' :: y.data := by
      rw [String.data_append, String.data_append, List.append_assoc]
      rfl
    have hnospace : ∀ c ∈ m.data, c ≠ ' ' := by
      intro c hc heq
      have hca := List.all_eq_true.mp halpha c hc
      rw [heq] at hca
      exact absurd hca (by decide)
    have hrep : jsReplaceFirstSpace (m ++ " " ++ y) = String.mk (m.data ++ y.data) := by
      unfold jsReplaceFirstSpace
      rw [hdata, removeFirstSpace_append m.data y.data hnospace]
    unfold generatePayslipId
    rw [hrep]
    unfold jsToUpperCase
    rw [String.data_append]
  · have hq : (((100 : ℤ) : ℚ)) ≤ 100 + r * 900 := by
      push_cast
      nlinarith
    exact Int.le_floor.mpr hq
  · have hq : (100 : ℚ) + r * 900 < ((1000 : ℤ) : ℚ) := by
      push_cast
      nlinarith
    have hfl := Int.floor_lt.mpr hq
    unfold jsRandom3
    omega

/-- Witness for C8 at the period `March 2025` and draw `0`. -/
theorem payslip_id_format_witness :
    ("March".data ≠ [] ∧ "March".data.all Char.isAlpha = true ∧
     "2025".data.all Char.isDigit = true ∧ "2025".data.length = 4 ∧
     (0 : ℚ) ≤ 0 ∧ (0 : ℚ) < 1) ∧
    (generatePayslipId ("March" ++ " " ++ "2025") 0 =
      "PSL-" ++ jsToUpperCase ("March" ++ "2025") ++ "-" ++
        toString (jsRandom3 0) ∧
     100 ≤ jsRandom3 0 ∧ jsRandom3 0 ≤ 999) :=
  ⟨⟨by decide, by decide, by decide, by decide, by decide, by decide⟩,
    payslip_id_format "March" "2025" 0 (by decide) (by decide) (by decide)
      (by decide) (by decide) (by decide)⟩

/-- C9. The text of the history list and count queries depends only on which
of `search`, `month`, `year` are present (truthy), never on their values nor
on `limit`/`offset`; `limit` and `offset` always travel in the bound
parameter list. -/
theorem query_text_param_independent :
    (∀ (s1 s2 m1 m2 y1 y2 : Option String) (l1 l2 o1 o2 : Int),
      strTruthy s1 = strTruthy s2 → strTruthy m1 = strTruthy m2 →
      strTruthy y1 = strTruthy y2 →
      (getPayslipsQuery s1 m1 y1 l1 o1).1 = (getPayslipsQuery s2 m2 y2 l2 o2).1 ∧
      (getPayslipCountQuery s1 m1 y1).1 = (getPayslipCountQuery s2 m2 y2).1) ∧
    (∀ (s m y : Option String) (l o : Int),
      SqlParam.num (some l) ∈ (getPayslipsQuery s m y l o).2 ∧
      SqlParam.num (some o) ∈ (getPayslipsQuery s m y l o).2) := by
  constructor
  · intro s1 s2 m1 m2 y1 y2 l1 l2 o1 o2 hs hm hy
    constructor
    · simp only [getPayslipsQuery]
      rw [hs, hm, hy]
      cases hsb : strTruthy s2 <;> cases hmb : strTruthy m2 <;>
        cases hyb : strTruthy y2 <;> rfl
    · simp only [getPayslipCountQuery]
      rw [hs, hm, hy]
      cases hsb : strTruthy s2 <;> cases hmb : strTruthy m2 <;>
        cases hyb : strTruthy y2 <;> rfl
  · intro s m y l o
    constructor <;>
    · simp only [getPayslipsQuery]
      split_ifs <;> simp

/-- Witness for C9: two parameter vectors with equal presence flags and
different values. -/
theorem query_text_param_independent_witness :
    (strTruthy (some "abc") = strTruthy (some "zzz") ∧
     strTruthy (none : Option String) = strTruthy none ∧
     strTruthy (some "2024") = strTruthy (some "1999")) ∧
    ((getPayslipsQuery (some "abc") none (some "2024") 10 0).1 =
       (getPayslipsQuery (some "zzz") none (some "1999") 25 70).1 ∧
     (getPayslipCountQuery (some "abc") none (some "2024")).1 =
       (getPayslipCountQuery (some "zzz") none (some "1999")).1) ∧
    (SqlParam.num (some 10) ∈ (getPayslipsQuery (some "abc") none (some "2024") 10 0).2 ∧
     SqlParam.num (some 0) ∈ (getPayslipsQuery (some "abc") none (some "2024") 10 0).2) :=
  ⟨⟨by decide, by decide, by decide⟩,
    query_text_param_independent.1 (some "abc") (some "zzz") none none
      (some "2024") (some "1999") 10 25 0 70 (by decide) (by decide) (by decide),
    query_text_param_independent.2 (some "abc") none (some "2024") 10 0⟩

/-- An accepted `part_000` payload whose deductions exceed its earnings. -/
def c10body : PayslipBody :=
  { sampleBody with
    basic_salary := 1000, hra := 0, other_allowance := 0,
    professional_tax := 2000, tds := 3000, provident_fund := 0, lwp := 0,
    other_deduction := some 0 }

/-- An accepted `server.js` payload whose deductions exceed its earnings. -/
def c10server : ServerBody :=
  { employee_id := "ATS0007"
    employee_name := "Jane Doe"
    employee_email := "jane@example.com"
    month_year := "April 2025"
    basic_salary := 1000
    da := 0
    hra := 0
    wage_allowance := 0
    medical_allowance := 0
    pf := 0
    esi := 0
    tds := 5000
    lwp := 0
    special_deduction := 0
    net_salary_field := none }

/-- C10. Payloads whose deductions exceed their earnings are accepted by the
validators of both variants, and every such accepted payload is stored and
returned by the create path with a strictly negative net salary: no operation
clamps the net salary at zero. -/
theorem negative_net_salary_possible :
    (validatePayslip c10body = [] ∧
     earningsSumSpec c10body < deductionsSumSpec c10body ∧
     validatePayslipData c10server = none ∧ serverNetSalary c10server < 0) ∧
    (∀ (store : List PayslipRecord) (b : PayslipBody) (r : ℚ),
      validatePayslip b = [] →
      earningsSumSpec b < deductionsSumSpec b →
      payslipExists store b.employee_id b.month_year = false →
      ∃ rec, createPayslip store b r = (CreateResult.created rec, store ++ [rec]) ∧
        rec.net_salary < 0) := by
  constructor
  · refine ⟨by decide, ?_, by decide, ?_⟩
    · norm_num [earningsSumSpec, deductionsSumSpec, c10body, sampleBody]
    · norm_num [serverNetSalary, c10server]
  · intro store b r hv hlt he
    refine ⟨toRecord b (generatePayslipId b.month_year r),
      createPayslip_insert store b r hv he, ?_⟩
    have heq : (toRecord b (generatePayslipId b.month_year r)).net_salary =
        earningsSumSpec b - deductionsSumSpec b := by
      simp [toRecord, calculateNetSalary, earningsSumSpec, deductionsSumSpec]
    rw [heq]
    linarith

/-- Witness for C10: the negative-net payload against the empty store. -/
theorem negative_net_salary_possible_witness :
    ∃ rec, createPayslip [] c10body 0 = (CreateResult.created rec, [] ++ [rec]) ∧
      rec.net_salary < 0 :=
  negative_net_salary_possible.2 [] c10body 0
    negative_net_salary_possible.1.1
    negative_net_salary_possible.1.2.1
    (by decide)

theorem historyLe_trans : ∀ a b c : PayslipRecord,
    historyLe a b = true → historyLe b c = true → historyLe a c = true := by
  intro a b c hab hbc
  simp only [historyLe, Bool.or_eq_true, Bool.and_eq_true,
    decide_eq_true_eq] at hab hbc ⊢
  rcases hab with h1 | ⟨h1, h2⟩ <;> rcases hbc with h3 | ⟨h3, h4⟩
  · exact Or.inl (lt_trans h3 h1)
  · exact Or.inl (h3 ▸ h1)
  · exact Or.inl (h1 ▸ h3)
  · exact Or.inr ⟨h1.trans h3, le_trans h2 h4⟩

theorem historyLe_total : ∀ a b : PayslipRecord,
    (historyLe a b || historyLe b a) = true := by
  intro a b
  simp only [historyLe, Bool.or_eq_true, Bool.and_eq_true, decide_eq_true_eq]
  rcases lt_trichotomy (periodKey a.month_year) (periodKey b.month_year) with h | h | h
  · exact Or.inr (Or.inl h)
  · rcases le_total a.employee_id b.employee_id with hle | hle
    · exact Or.inl (Or.inr ⟨h, hle⟩)
    · exact Or.inr (Or.inr ⟨h.symm, hle⟩)
  · exact Or.inl (Or.inl h)

theorem ratCeilDiv_eq (n d : Nat) (hd : 1 ≤ d) :
    ratCeilDiv n d = (n + d - 1) / d := by
  unfold ratCeilDiv
  have hd0 : (0 : ℚ) < d := by
    exact_mod_cast hd
  set q := (n + d - 1) / d with hq
  set r := (n + d - 1) % d with hr
  have hsum : d * q + r = n + d - 1 := Nat.div_add_mod _ _
  have hrd : r < d := Nat.mod_lt _ (by omega)
  have hsum2 : d * q + r + 1 = n + d := by omega
  have hq1 : (d : ℚ) * q + r + 1 = n + d := by exact_mod_cast hsum2
  have hq2 : (r : ℚ) + 1 ≤ d := by exact_mod_cast hrd
  have hq3 : (0 : ℚ) ≤ r := by positivity
  have hceil : ⌈(n : ℚ) / (d : ℚ)⌉ = (q : ℤ) := by
    rw [Int.ceil_eq_iff]
    constructor
    · rw [lt_div_iff₀ hd0]
      push_cast
      nlinarith
    · rw [div_le_iff₀ hd0]
      push_cast
      nlinarith
  rw [hceil]
  exact Int.toNat_natCast q

/-- C4. For every history request with `page ≥ 1` and `limit ≥ 1`, the
returned rows are exactly positions `(page-1)·limit+1 … page·limit` of the
filtered set ordered by pay period descending then employee id, the data is
sorted by that order, and the metadata satisfies `total = |filtered set|`,
`totalPages = ⌈total / limit⌉`, `currentPage = page`. -/
theorem history_pagination :
    ∀ (table : List PayslipRecord) (s m y : Option String) (page limit : Nat),
      1 ≤ page → 1 ≤ limit →
      (∀ i, i < limit →
        (historyResponse table s m y page limit).data[i]? =
          (orderedHistory table s m y)[(page - 1) * limit + i]?) ∧
      (historyResponse table s m y page limit).pagination.total =
        (orderedHistory table s m y).length ∧
      (historyResponse table s m y page limit).pagination.totalPages =
        ((orderedHistory table s m y).length + limit - 1) / limit ∧
      (historyResponse table s m y page limit).pagination.currentPage = page ∧
      (historyResponse table s m y page limit).pagination.limit = limit ∧
      List.Pairwise (fun a b => historyLe a b = true)
        (historyResponse table s m y page limit).data := by
  intro table s m y page limit hp hl
  refine ⟨?_, ?_, ?_, rfl, rfl, ?_⟩
  · intro i hi
    show (((orderedHistory table s m y).drop ((page - 1) * limit)).take limit)[i]? = _
    rw [List.getElem?_take, if_pos hi, List.getElem?_drop]
  · show (historyFiltered table s m y).length = _
    rw [orderedHistory, List.length_mergeSort]
  · show ratCeilDiv (historyFiltered table s m y).length limit = _
    rw [ratCeilDiv_eq _ _ hl, orderedHistory, List.length_mergeSort]
  · exact List.Pairwise.sublist
      ((List.take_sublist _ _).trans (List.drop_sublist _ _))
      (List.sorted_mergeSort historyLe_trans historyLe_total
        (historyFiltered table s m y))

/-- Witness for C4 at a one-row table, `page = 2`, `limit = 10`. -/
theorem history_pagination_witness :
    (1 ≤ 2 ∧ 1 ≤ 10) ∧
    ((∀ i, i < 10 →
      (historyResponse [toRecord sampleBody "P1"] none none none 2 10).data[i]? =
        (orderedHistory [toRecord sampleBody "P1"] none none none)[(2 - 1) * 10 + i]?) ∧
     (historyResponse [toRecord sampleBody "P1"] none none none 2 10).pagination.total =
       (orderedHistory [toRecord sampleBody "P1"] none none none).length ∧
     (historyResponse [toRecord sampleBody "P1"] none none none 2 10).pagination.totalPages =
       ((orderedHistory [toRecord sampleBody "P1"] none none none).length + 10 - 1) / 10 ∧
     (historyResponse [toRecord sampleBody "P1"] none none none 2 10).pagination.currentPage = 2 ∧
     (historyResponse [toRecord sampleBody "P1"] none none none 2 10).pagination.limit = 10 ∧
     List.Pairwise (fun a b => historyLe a b = true)
       (historyResponse [toRecord sampleBody "P1"] none none none 2 10).data) :=
  ⟨⟨by decide, by decide⟩,
    history_pagination [toRecord sampleBody "P1"] none none none 2 10
      (by decide) (by decide)⟩

end Payslip
